import Mathlib

/-!
Verification development for the markindex multi-tenant application
(authentication, session lifecycle, CSRF defense, tenant-scoped
authorization).

Modelling conventions:
* Timestamps are `Int` values, milliseconds since the epoch, exactly as
  produced by JavaScript's `Date.now()` / `Date.getTime()`.
* Each database table is a `List` of row structures mirroring the Drizzle
  schema in `lib/db/schema.ts`; a Drizzle `select ... innerJoin ... where
  ... limit 1` is modelled as a flatMap-based join followed by `filter`
  and `head?`, in the order the query builder applies them.
* `ORDER BY key` is modelled by a stable insertion sort on the key.
* Server actions thread the database state explicitly:
  `State → (Result × State)`.
* The CSRF module compares strings byte by byte via `Buffer.from`; a
  string is modelled there by its UTF-8 byte sequence (`List Nat`),
  on which equality of byte sequences and equality of strings coincide.
-/

/-! ## Data model (lib/db/schema.ts) -/

/-- Row of the `user` table. -/
structure UserRow where
  userId : Nat
  userUuid : String
  userPublicUuid : String
  email : String
  passwordHash : String
  deriving Repr, DecidableEq

/-- Row of the `session` table. `expiresAt` is a millisecond timestamp. -/
structure SessionRow where
  sessionId : Nat
  sessionToken : String
  userId : Nat
  expiresAt : Int
  deriving Repr, DecidableEq

/-- Row of the `business` table. -/
structure BusinessRow where
  businessId : Nat
  businessUuid : String
  businessPublicUuid : String
  name : String
  logoUrl : Option String
  deriving Repr, DecidableEq

/-- Row of the `user_business` junction table (`role` is the string
`admin` or `member`, stored as text). -/
structure UserBusinessRow where
  userBusinessId : Nat
  userId : Nat
  businessId : Nat
  role : String
  deriving Repr, DecidableEq

/-- Row of the `portfolio` table (`visibility` is the string `visible`
or `hidden`, stored as text). -/
structure PortfolioRow where
  portfolioId : Nat
  portfolioUuid : String
  portfolioPublicUuid : String
  businessId : Nat
  title : String
  visibility : String
  deriving Repr, DecidableEq

/-- Row of the `comment` table. `createdAt` is a millisecond timestamp. -/
structure CommentRow where
  commentId : Nat
  commentUuid : String
  portfolioId : Nat
  userId : Nat
  content : String
  createdAt : Int
  deriving Repr, DecidableEq

/-- The durable state behind the shared transactional store: one list
per table. -/
structure DB where
  users : List UserRow
  sessions : List SessionRow
  businesses : List BusinessRow
  userBusinesses : List UserBusinessRow
  portfolios : List PortfolioRow
  comments : List CommentRow
  deriving Repr, DecidableEq

/-! ## ORDER BY model: stable insertion sort -/

/-- Insert an element in front of the first list element it is `le`-below. -/
def orderedInsert (le : α → α → Bool) (a : α) : List α → List α
  | [] => [a]
  | b :: l => if le a b then a :: b :: l else b :: orderedInsert le a l

/-- Stable insertion sort; models SQL `ORDER BY`. -/
def insertionSort (le : α → α → Bool) : List α → List α
  | [] => []
  | a :: l => orderedInsert le a (insertionSort le l)

theorem mem_orderedInsert (le : α → α → Bool) (a b : α) (l : List α) :
    b ∈ orderedInsert le a l ↔ b = a ∨ b ∈ l := by
  induction l with
  | nil => simp [orderedInsert]
  | cons c l ih =>
    simp only [orderedInsert]
    by_cases h : le a c = true
    · simp [h, List.mem_cons]
    · simp [h, List.mem_cons, ih]
      tauto

theorem mem_insertionSort (le : α → α → Bool) (a : α) (l : List α) :
    a ∈ insertionSort le l ↔ a ∈ l := by
  induction l with
  | nil => simp [insertionSort]
  | cons b l ih =>
    simp [insertionSort, mem_orderedInsert, ih, List.mem_cons]

/-! ## SessionManager (lib/auth/session.ts) -/

/-- Constant `THIRTY_DAYS_MS = 1000 * 60 * 60 * 24 * 30`. -/
def THIRTY_DAYS_MS : Int := 1000 * 60 * 60 * 24 * 30

/-- Constant `FIFTEEN_DAYS_MS = 1000 * 60 * 60 * 24 * 15`. -/
def FIFTEEN_DAYS_MS : Int := 1000 * 60 * 60 * 24 * 15

/-- The Drizzle query inside `validateSessionToken`:
`select {user, session} from session innerJoin user on
session.userId = user.userId`. -/
def sessionUserJoin (db : DB) : List (UserRow × SessionRow) :=
  db.sessions.flatMap fun s =>
    (db.users.filter fun u => s.userId == u.userId).map fun u => (u, s)

/-- Embedding of `validateSessionToken` from `lib/auth/session.ts`.
Looks the session up by token (joined with its user, `limit 1`); if
absent returns null session and user; if `now >= expiresAt` deletes the
session row and returns nulls; if `now >= expiresAt - FIFTEEN_DAYS_MS`
extends the stored expiry to `now + THIRTY_DAYS_MS` before returning the
session and user. The current time is an explicit argument standing for
`Date.now()`. -/
def validateSessionToken (db : DB) (now : Int) (token : String) :
    (Option SessionRow × Option UserRow) × DB :=
  let rows := (sessionUserJoin db).filter fun p => p.2.sessionToken == token
  match rows.head? with
  | none => ((none, none), db)
  | some (userData, sessionData) =>
    if now ≥ sessionData.expiresAt then
      ((none, none),
       { db with sessions :=
          db.sessions.filter fun s => s.sessionId != sessionData.sessionId })
    else if now ≥ sessionData.expiresAt - FIFTEEN_DAYS_MS then
      let newExpiresAt := now + THIRTY_DAYS_MS
      (((some { sessionData with expiresAt := newExpiresAt }), some userData),
       { db with sessions :=
          db.sessions.map fun s =>
            if s.sessionId == sessionData.sessionId then
              { s with expiresAt := newExpiresAt }
            else s })
    else
      ((some sessionData, some userData), db)

/-! ## AuthorizationResolver (lib/auth/business.ts) -/

/-- Result shape of `getUserBusinessAccess`: the selected columns of the
`business` × `user_business` join. -/
structure BusinessAccess where
  businessId : Nat
  businessUuid : String
  businessPublicUuid : String
  name : String
  logoUrl : Option String
  role : String
  deriving Repr, DecidableEq

/-- The Drizzle join inside `getUserBusinessAccess`:
`from(business).innerJoin(userBusiness, business.businessId =
userBusiness.businessId)`. -/
def businessMembershipJoin (db : DB) : List (BusinessRow × UserBusinessRow) :=
  db.businesses.flatMap fun b =>
    (db.userBusinesses.filter fun ub => b.businessId == ub.businessId).map
      fun ub => (b, ub)

/-- Embedding of `getUserBusinessAccess` from `lib/auth/business.ts`:
join `business` with `user_business`, keep rows whose
`business.businessUuid` equals the supplied external id and whose
`userBusiness.userId` equals the caller, `limit 1`; `null` when no row
matches. -/
def getUserBusinessAccess (db : DB) (userId : Nat) (businessUuid : String) :
    Option BusinessAccess :=
  let rows := (businessMembershipJoin db).filter fun p =>
    p.1.businessUuid == businessUuid && p.2.userId == userId
  rows.head?.map fun p =>
    { businessId := p.1.businessId
      businessUuid := p.1.businessUuid
      businessPublicUuid := p.1.businessPublicUuid
      name := p.1.name
      logoUrl := p.1.logoUrl
      role := p.2.role }

/-! ## Server actions (lib/actions/business.ts) -/

/-- Outcome of a server action: a Next.js redirect, an error object
`\x7b error: msg \x7d`, or a success object. -/
inductive ActionResult where
  | redirectTo (path : String)
  | actionError (msg : String)
  | actionSuccess
  deriving Repr, DecidableEq

/-- Model of the whitespace trimming `String.prototype.trim` performs on
both ends of a string. -/
def trimStr (s : String) : String :=
  ⟨((s.data.dropWhile Char.isWhitespace).reverse.dropWhile
      Char.isWhitespace).reverse⟩

/-- Model of a zod schema `z.string().min(minLen).max(maxLen).trim()`
applied to `formData.get(...)` (which yields `string | null`; `null`
fails the string check). zod runs the `min`/`max` checks on the raw
string in order and applies the `trim` transform afterwards. -/
def parseTrimmedString (minLen maxLen : Nat) (input : Option String) :
    Option String :=
  match input with
  | none => none
  | some s =>
    if minLen ≤ s.length && s.length ≤ maxLen then some (trimStr s) else none

/-- Model of `createBusinessSchema`: name, min 1, max 100, trimmed. -/
def createBusinessSchema (input : Option String) : Option String :=
  parseTrimmedString 1 100 input

/-- Model of `createPortfolioSchema`: title, min 1, max 100, trimmed. -/
def createPortfolioSchema (input : Option String) : Option String :=
  parseTrimmedString 1 100 input

/-- Model of `addCommentSchema`: content, min 1, max 1000, trimmed. -/
def addCommentSchema (input : Option String) : Option String :=
  parseTrimmedString 1 1000 input

/-- ASCII lower-casing of one character, as `toLowerCase` maps the
characters appearing in email addresses. -/
def lowerAscii (c : Char) : Char :=
  if 'A' ≤ c && c ≤ 'Z' then Char.ofNat (c.toNat + 32) else c

/-- Model of the JavaScript `toLowerCase()` transform. -/
def toLowerStr (s : String) : String :=
  ⟨s.data.map lowerAscii⟩

/-- Model of `assignUserSchema`: `z.string().email().min(1).toLowerCase()`.
The email-format check is zod library code, modelled by the predicate
argument `emailOk`; the `toLowerCase` transform is applied to the result. -/
def assignUserSchema (emailOk : String → Bool) (input : Option String) :
    Option String :=
  match input with
  | none => none
  | some s => if emailOk s && 1 ≤ s.length then some (toLowerStr s) else none

/-- Embedding of the `createBusiness` server action. Arguments model the
ambient request context: `now` is `Date.now()`, `token` the session
cookie, `nameInput` the `name` form field, the two uuids the values of
`randomUUID()`, and the two ids the values the serial primary keys
assign. The `db.transaction` block is one atomic state change: either
both the business row and the creator's admin membership row are added,
or (on a unique-constraint violation on either business uuid) the store
is left untouched and the generic error is returned. -/
def createBusiness (db : DB) (now : Int) (token : Option String)
    (nameInput : Option String) (businessUuid businessPublicUuid : String)
    (newBusinessId newUserBusinessId : Nat) : ActionResult × DB :=
  match token with
  | none => (.actionError "Unauthorized", db)
  | some t =>
    let ((_, usr), db1) := validateSessionToken db now t
    match usr with
    | none => (.actionError "Unauthorized", db1)
    | some currentUser =>
      match createBusinessSchema nameInput with
      | none => (.actionError "Invalid business name", db1)
      | some name =>
        if db1.businesses.any fun b =>
            b.businessUuid == businessUuid
            || b.businessPublicUuid == businessPublicUuid then
          (.actionError "Failed to create business", db1)
        else
          let createdBusiness : BusinessRow :=
            { businessId := newBusinessId
              businessUuid := businessUuid
              businessPublicUuid := businessPublicUuid
              name := name
              logoUrl := none }
          let membership : UserBusinessRow :=
            { userBusinessId := newUserBusinessId
              userId := currentUser.userId
              businessId := newBusinessId
              role := "admin" }
          (.redirectTo ("/app/" ++ businessUuid),
           { db1 with
              businesses := db1.businesses ++ [createdBusiness]
              userBusinesses := db1.userBusinesses ++ [membership] })

/-- Embedding of the `assignUserToBusiness` server action: authenticate,
validate the email, check the caller is `admin` of the business, look the
target user up by email, refuse when a membership row for the
(user, business) pair already exists, otherwise insert a `member` row. -/
def assignUserToBusiness (db : DB) (now : Int) (token : Option String)
    (emailOk : String → Bool) (emailInput : Option String)
    (businessUuid : String) (newUserBusinessId : Nat) : ActionResult × DB :=
  match token with
  | none => (.actionError "Unauthorized", db)
  | some t =>
    let ((_, usr), db1) := validateSessionToken db now t
    match usr with
    | none => (.actionError "Unauthorized", db1)
    | some currentUser =>
      match assignUserSchema emailOk emailInput with
      | none => (.actionError "Something went wrong", db1)
      | some email =>
        match getUserBusinessAccess db1 currentUser.userId businessUuid with
        | none => (.actionError "Something went wrong", db1)
        | some businessAccess =>
          if businessAccess.role != "admin" then
            (.actionError "Something went wrong", db1)
          else
            match (db1.users.filter fun u => u.email == email).head? with
            | none => (.actionError "Something went wrong", db1)
            | some targetUser =>
              match (db1.userBusinesses.filter fun ub =>
                  ub.userId == targetUser.userId
                  && ub.businessId == businessAccess.businessId).head? with
              | some _ => (.actionError "Something went wrong", db1)
              | none =>
                (.actionSuccess,
                 { db1 with userBusinesses := db1.userBusinesses ++
                    [{ userBusinessId := newUserBusinessId
                       userId := targetUser.userId
                       businessId := businessAccess.businessId
                       role := "member" }] })

/-- Columns selected by `getBusinessPortfolios` (no `businessId`). -/
structure PortfolioListItem where
  portfolioId : Nat
  portfolioUuid : String
  portfolioPublicUuid : String
  title : String
  visibility : String
  deriving Repr, DecidableEq

/-- Projection of a portfolio row onto the selected columns. -/
def projectPortfolio (p : PortfolioRow) : PortfolioListItem :=
  { portfolioId := p.portfolioId
    portfolioUuid := p.portfolioUuid
    portfolioPublicUuid := p.portfolioPublicUuid
    title := p.title
    visibility := p.visibility }

/-- Embedding of `getBusinessPortfolios`: select from `portfolio` where
`businessId` matches, ordered by title. No visibility filter appears in
the query. -/
def getBusinessPortfolios (db : DB) (businessId : Nat) :
    List PortfolioListItem :=
  (insertionSort (fun p q => decide (p.title ≤ q.title))
    (db.portfolios.filter fun p => p.businessId == businessId)).map
    projectPortfolio

/-- Embedding of the `togglePortfolioVisibility` server action:
authenticate, require the `admin` role on the business, look the
portfolio up scoped to that business (`portfolioUuid` and `businessId`
together), flip `visible`/`hidden`, and update the row by uuid. -/
def togglePortfolioVisibility (db : DB) (now : Int) (token : Option String)
    (portfolioUuid businessUuid : String) : ActionResult × DB :=
  match token with
  | none => (.actionError "Unauthorized", db)
  | some t =>
    let ((_, usr), db1) := validateSessionToken db now t
    match usr with
    | none => (.actionError "Unauthorized", db1)
    | some currentUser =>
      match getUserBusinessAccess db1 currentUser.userId businessUuid with
      | none => (.actionError "Something went wrong", db1)
      | some businessAccess =>
        if businessAccess.role != "admin" then
          (.actionError "Something went wrong", db1)
        else
          match (db1.portfolios.filter fun p =>
              p.portfolioUuid == portfolioUuid
              && p.businessId == businessAccess.businessId).head? with
          | none => (.actionError "Something went wrong", db1)
          | some currentPortfolio =>
            let newVisibility :=
              if currentPortfolio.visibility == "visible" then "hidden"
              else "visible"
            (.actionSuccess,
             { db1 with portfolios := db1.portfolios.map fun p =>
                if p.portfolioUuid == portfolioUuid then
                  { p with visibility := newVisibility }
                else p })

/-- Embedding of the `addComment` server action: authenticate, validate
the content, require any membership in the business, look the portfolio
up scoped to that business, allow members only on `visible` portfolios
(admins on any), then insert the comment row (`createdAt` is filled by
the store's `now()` default, modelled by the same `now`). -/
def addComment (db : DB) (now : Int) (token : Option String)
    (contentInput : Option String) (portfolioUuid businessUuid : String)
    (newCommentId : Nat) (commentUuid : String) : ActionResult × DB :=
  match token with
  | none => (.actionError "Unauthorized", db)
  | some t =>
    let ((_, usr), db1) := validateSessionToken db now t
    match usr with
    | none => (.actionError "Unauthorized", db1)
    | some currentUser =>
      match addCommentSchema contentInput with
      | none => (.actionError "Invalid comment", db1)
      | some content =>
        match getUserBusinessAccess db1 currentUser.userId businessUuid with
        | none => (.actionError "Something went wrong", db1)
        | some businessAccess =>
          match (db1.portfolios.filter fun p =>
              p.portfolioUuid == portfolioUuid
              && p.businessId == businessAccess.businessId).head? with
          | none => (.actionError "Something went wrong", db1)
          | some currentPortfolio =>
            if businessAccess.role != "admin"
                && currentPortfolio.visibility != "visible" then
              (.actionError "Something went wrong", db1)
            else
              (.actionSuccess,
               { db1 with comments := db1.comments ++
                  [{ commentId := newCommentId
                     commentUuid := commentUuid
                     portfolioId := currentPortfolio.portfolioId
                     userId := currentUser.userId
                     content := content
                     createdAt := now }] })

/-- Columns selected by `getPortfolioComments`. -/
structure CommentView where
  commentId : Nat
  commentUuid : String
  content : String
  createdAt : Int
  userId : Nat
  userEmail : String
  deriving Repr, DecidableEq

/-- The Drizzle join inside `getPortfolioComments`:
`from(comment).innerJoin(user, comment.userId = user.userId)`. -/
def commentUserJoin (db : DB) : List (CommentRow × UserRow) :=
  db.comments.flatMap fun c =>
    (db.users.filter fun u => c.userId == u.userId).map fun u => (c, u)

/-- Embedding of `getPortfolioComments`: comments of the portfolio joined
with their authors, ordered by `desc(comment.createdAt)` (largest
timestamp first). -/
def getPortfolioComments (db : DB) (portfolioId : Nat) : List CommentView :=
  (insertionSort (fun a b => decide (b.1.createdAt ≤ a.1.createdAt))
    ((commentUserJoin db).filter fun p => p.1.portfolioId == portfolioId)).map
    fun p =>
      { commentId := p.1.commentId
        commentUuid := p.1.commentUuid
        content := p.1.content
        createdAt := p.1.createdAt
        userId := p.1.userId
        userEmail := p.2.email }

/-! ## Pages (app/app/[businessUuid]/page.tsx and
app/app/[businessUuid]/[portfolioUuid]/page.tsx) -/

/-- Outcome of rendering a server page. -/
inductive PageOutcome where
  | redirectLogin
  | pageNotFound
  | renderBusiness (access : BusinessAccess)
  | renderPortfolio (portfolioData : PortfolioRow) (isAdmin : Bool)
      (comments : List CommentView)
  deriving Repr, DecidableEq

/-- Embedding of `BusinessPage`: authenticate, resolve access via
`getUserBusinessAccess`, render 404 when access is null (whether the
business is missing or the caller has no membership), else render the
dashboard. -/
def businessPage (db : DB) (now : Int) (token : Option String)
    (businessUuid : String) : PageOutcome × DB :=
  match token with
  | none => (.redirectLogin, db)
  | some t =>
    let ((_, usr), db1) := validateSessionToken db now t
    match usr with
    | none => (.redirectLogin, db1)
    | some currentUser =>
      match getUserBusinessAccess db1 currentUser.userId businessUuid with
      | none => (.pageNotFound, db1)
      | some businessAccess => (.renderBusiness businessAccess, db1)

/-- Embedding of `PortfolioPage`: authenticate, resolve business access,
fetch the portfolio by uuid (`limit 1`), 404 when it is missing or owned
by a different business, 404 for a non-admin on a hidden portfolio, else
render it with its comments. -/
def portfolioPage (db : DB) (now : Int) (token : Option String)
    (businessUuid portfolioUuid : String) : PageOutcome × DB :=
  match token with
  | none => (.redirectLogin, db)
  | some t =>
    let ((_, usr), db1) := validateSessionToken db now t
    match usr with
    | none => (.redirectLogin, db1)
    | some currentUser =>
      match getUserBusinessAccess db1 currentUser.userId businessUuid with
      | none => (.pageNotFound, db1)
      | some businessAccess =>
        match (db1.portfolios.filter fun p =>
            p.portfolioUuid == portfolioUuid).head? with
        | none => (.pageNotFound, db1)
        | some portfolioData =>
          if portfolioData.businessId != businessAccess.businessId then
            (.pageNotFound, db1)
          else
            let isAdmin := businessAccess.role == "admin"
            let isVisible := portfolioData.visibility == "visible"
            if !isAdmin && !isVisible then
              (.pageNotFound, db1)
            else
              (.renderPortfolio portfolioData isAdmin
                (getPortfolioComments db1 portfolioData.portfolioId), db1)

/-- Modelled from the spec: the page that lists a tenant's portfolios
(user stories US009 and US010; spec section 4.5, derived
resource-visibility rule) is not among the provided source files — only
its data helper `getBusinessPortfolios` and its rendering component
`PortfoliosList` are. Per the spec, the listing resolves the caller's
access; an `admin` sees all of the tenant's Resources while a `member`
sees only those with `visible`; without access nothing is listed. -/
def listPortfoliosForCaller (db : DB) (userId : Nat)
    (businessUuid : String) : Option (List PortfolioListItem) :=
  match getUserBusinessAccess db userId businessUuid with
  | none => none
  | some access =>
    let allPortfolios := getBusinessPortfolios db access.businessId
    if access.role == "admin" then some allPortfolios
    else some (allPortfolios.filter fun p => p.visibility == "visible")

/-! ## CsrfGuard (old/markindex/src/lib/csrf.ts) -/

/-- Embedding of `timingSafeEqual`. A JavaScript string is modelled by
its UTF-8 byte sequence (`Buffer.from`): `aLen`/`bLen` are the byte
lengths, the accumulator starts at 1 when they differ, every position up
to the longer length contributes the XOR of the bytes at `i % len`
(an out-of-range or NaN index reads as 0 via `|| 0`, which
`List.getD _ 0` reproduces), and the strings compare equal exactly when
the accumulated OR is 0. -/
def timingSafeEqual (a b : List Nat) : Bool :=
  let aLen := a.length
  let bLen := b.length
  let maxLen := max aLen bLen
  let init : Nat := if aLen == bLen then 0 else 1
  let result := (List.range maxLen).foldl
    (fun r i => r ||| ((a.getD (i % aLen) 0) ^^^ (b.getD (i % bLen) 0))) init
  result == 0

/-- The request headers consulted by `validateCsrfToken`: the value of
`X-CSRF-Token`, if present, as a UTF-8 byte sequence. -/
structure CsrfRequestHeaders where
  xCsrfToken : Option (List Nat)
  deriving Repr, DecidableEq

/-- The session fields consulted by `validateCsrfToken`: the stored CSRF
token, as a UTF-8 byte sequence. -/
structure ApiSession where
  csrfToken : List Nat
  deriving Repr, DecidableEq

/-- Embedding of `validateCsrfToken`: the guard `if (!requestToken)
return false` rejects a falsy header value — a missing header and, by
JavaScript falsiness, a present-but-empty one; otherwise the value is
compared to the session's stored token with `timingSafeEqual`. -/
def validateCsrfToken (request : CsrfRequestHeaders)
    (s : ApiSession) : Bool :=
  match request.xCsrfToken with
  | none => false
  | some requestToken =>
    if requestToken.isEmpty then false
    else timingSafeEqual requestToken s.csrfToken

/-- The request headers consulted by `validateOrigin`. -/
structure OriginHeaders where
  origin : Option String
  referer : Option String
  deriving Repr, DecidableEq

/-- JavaScript truthiness of a nullable header value: `if (header)` is
taken only when the header is present and non-empty. -/
def headerTruthy : Option String → Bool
  | none => false
  | some s => !s.isEmpty

/-- The referer fall-through of `validateOrigin` (the code after the
`if (origin)` block): with a truthy `Referer` header its parsed origin
is membership-tested — a parse failure lands in the `catch`, returning
false — and with a falsy one the function reaches the final
`return true`. The `new URL(referer).origin` computation is Node
library code, modelled by the function argument `parseRefererOrigin`;
a constructor throw (malformed URL) is `none`. -/
def refererOriginCheck (parseRefererOrigin : String → Option String)
    (referer : Option String) (allowedOrigins : List String) : Bool :=
  match referer with
  | some r =>
    if r.isEmpty then true
    else
      match parseRefererOrigin r with
      | some refererOrigin => allowedOrigins.contains refererOrigin
      | none => false
  | none => true

/-- Embedding of `validateOrigin`. The guard `if (origin)` is JavaScript
truthiness: only a present, non-empty `Origin` header short-circuits
into the membership test; a missing or empty one falls through to the
referer check. -/
def validateOrigin (parseRefererOrigin : String → Option String)
    (request : OriginHeaders) (allowedOrigins : List String) : Bool :=
  match request.origin with
  | some o =>
    if o.isEmpty then
      refererOriginCheck parseRefererOrigin request.referer allowedOrigins
    else allowedOrigins.contains o
  | none => refererOriginCheck parseRefererOrigin request.referer allowedOrigins

/-- The origin a truthy `Referer` header declares: its parsed origin; a
falsy or unparseable referer declares none. -/
def refererDeclaredOrigin (parseRefererOrigin : String → Option String) :
    Option String → Option String
  | some r => if r.isEmpty then none else parseRefererOrigin r
  | none => none

/-- The origin a request declares, in the spec's sense and under the
code's truthiness reading of the headers: a non-empty `Origin` header,
or failing that the origin a non-empty `Referer` header parses to. -/
def declaredOrigin (parseRefererOrigin : String → Option String)
    (request : OriginHeaders) : Option String :=
  match request.origin with
  | some o =>
    if o.isEmpty then refererDeclaredOrigin parseRefererOrigin request.referer
    else some o
  | none => refererDeclaredOrigin parseRefererOrigin request.referer

/-! ## Helper lemmas -/

theorem or_eq_zero (a b : Nat) : a ||| b = 0 ↔ a = 0 ∧ b = 0 := by
  constructor
  · intro h
    constructor
    · apply Nat.eq_of_testBit_eq
      intro i
      have hb := congrArg (fun n => Nat.testBit n i) h
      simp [Nat.testBit_lor] at hb
      simp [hb.1]
    · apply Nat.eq_of_testBit_eq
      intro i
      have hb := congrArg (fun n => Nat.testBit n i) h
      simp [Nat.testBit_lor] at hb
      simp [hb.2]
  · rintro ⟨rfl, rfl⟩; rfl

theorem foldl_or_eq_zero (f : Nat → Nat) (init : Nat) (l : List Nat) :
    l.foldl (fun r i => r ||| f i) init = 0 ↔
      init = 0 ∧ ∀ i ∈ l, f i = 0 := by
  induction l generalizing init with
  | nil => simp
  | cons a l ih =>
    simp only [List.foldl_cons, ih, or_eq_zero, List.mem_cons]
    constructor
    · rintro ⟨⟨h1, h2⟩, h3⟩
      exact ⟨h1, by rintro i (rfl | hi); exact h2; exact h3 i hi⟩
    · rintro ⟨h1, h2⟩
      exact ⟨⟨h1, h2 a (Or.inl rfl)⟩, fun i hi => h2 i (Or.inr hi)⟩

/-! ## Theorems -/

/-- Byte-level correctness of the constant-time comparison:
`timingSafeEqual a b` coincides with equality of the byte sequences for
all inputs, including empty ones and ones of different lengths. -/
theorem timingSafeEqual_iff_eq (a b : List Nat) :
    timingSafeEqual a b = true ↔ a = b := by
  simp only [timingSafeEqual, beq_iff_eq, foldl_or_eq_zero, List.mem_range]
  constructor
  · rintro ⟨hinit, hall⟩
    by_cases hlen : a.length = b.length
    · apply List.ext_getElem hlen
      intro i h1 h2
      have hx := hall i (by omega)
      rw [Nat.mod_eq_of_lt h1, Nat.mod_eq_of_lt h2] at hx
      have hg := Nat.xor_eq_zero.mp hx
      rwa [List.getD_eq_getElem a 0 h1, List.getD_eq_getElem b 0 h2] at hg
    · exfalso
      rw [if_neg hlen] at hinit
      exact one_ne_zero hinit
  · rintro rfl
    refine ⟨by simp, ?_⟩
    intro i _
    simp [Nat.xor_self]

/-- C5 counterexample: a request whose `X-CSRF-Token` header is present
and equal, byte for byte, to the session's stored CSRF token — both
empty — is still rejected: the falsy guard `if (!requestToken)` fires on
the empty header value, so validation does not return true exactly when
the carried header equals the stored token. -/
theorem validateCsrfToken_rejects_present_empty_token :
    ({ xCsrfToken := some [] } : CsrfRequestHeaders).xCsrfToken =
      some ({ csrfToken := [] } : ApiSession).csrfToken ∧
    validateCsrfToken { xCsrfToken := some [] } { csrfToken := [] } =
      false :=
  ⟨rfl, rfl⟩

/-- C5 amended: `validateCsrfToken` returns true exactly when the
request carries a non-empty `X-CSRF-Token` header whose value equals the
session's stored CSRF token byte for byte; a missing header, an empty
header, and a mismatched header all produce the identical `false`
outcome; and `timingSafeEqual a b` coincides with equality of the byte
sequences for all inputs, including empty ones and ones of different
lengths. -/
theorem csrf_validation_amended :
    (∀ (request : CsrfRequestHeaders) (s : ApiSession),
        validateCsrfToken request s = true ↔
          (request.xCsrfToken = some s.csrfToken ∧ s.csrfToken ≠ [])) ∧
    (∀ a b : List Nat, timingSafeEqual a b = true ↔ a = b) := by
  refine ⟨?_, timingSafeEqual_iff_eq⟩
  intro request s
  cases h : request.xCsrfToken with
  | none => simp [validateCsrfToken, h]
  | some t =>
    by_cases ht : t = []
    · subst ht
      simp only [validateCsrfToken, h, List.isEmpty_nil, if_pos]
      constructor
      · intro hfalse
        exact absurd hfalse (by simp)
      · rintro ⟨heq, hne⟩
        exact absurd (Option.some_inj.mp heq).symm hne
    · have hts : validateCsrfToken request s =
          timingSafeEqual t s.csrfToken := by
        simp [validateCsrfToken, h, List.isEmpty_iff, ht]
      rw [hts, timingSafeEqual_iff_eq]
      constructor
      · rintro rfl
        exact ⟨rfl, ht⟩
      · rintro ⟨heq, _⟩
        exact Option.some_inj.mp heq

/-- C6 counterexample: a mutating request that declares no origin at all
(neither an `Origin` nor a `Referer` header) is accepted by
`validateOrigin`, even though its declared origin does not equal any
allowed serving-host origin — so the guard does not return true only for
requests declaring an allowed origin. -/
theorem validateOrigin_accepts_headerless :
    declaredOrigin (fun _ => none)
      { origin := none, referer := none } = none ∧
    validateOrigin (fun _ => none)
      { origin := none, referer := none } ["https://app.example.com"] = true :=
  ⟨rfl, rfl⟩

/-- C6 amended: `validateOrigin` returns true exactly when the request
declares an origin — a truthy (present, non-empty) `Origin` header, or
failing that the origin a truthy `Referer` header parses to — that
equals one of the allowed serving-host origins, or when both headers are
falsy (missing or empty), in which case the request is allowed without
declaring any origin; every mutating call that declares an origin not
equal to an allowed serving-host origin is rejected. -/
theorem validateOrigin_amended (parseRefererOrigin : String → Option String)
    (request : OriginHeaders) (allowedOrigins : List String) :
    validateOrigin parseRefererOrigin request allowedOrigins = true ↔
      ((∃ o, declaredOrigin parseRefererOrigin request = some o ∧
          o ∈ allowedOrigins) ∨
        (headerTruthy request.origin = false ∧
         headerTruthy request.referer = false)) := by
  obtain ⟨og, rf⟩ := request
  have hreferer : ∀ rf0 : Option String,
      refererOriginCheck parseRefererOrigin rf0 allowedOrigins = true ↔
        ((∃ o, refererDeclaredOrigin parseRefererOrigin rf0 = some o ∧
            o ∈ allowedOrigins) ∨ headerTruthy rf0 = false) := by
    intro rf0
    cases rf0 with
    | none => simp [refererOriginCheck, refererDeclaredOrigin, headerTruthy]
    | some r =>
      by_cases hr : r.isEmpty
      · simp [refererOriginCheck, refererDeclaredOrigin, headerTruthy, hr]
      · cases hp : parseRefererOrigin r with
        | none =>
          simp [refererOriginCheck, refererDeclaredOrigin, headerTruthy,
            hr, hp]
        | some ro =>
          simp [refererOriginCheck, refererDeclaredOrigin, headerTruthy,
            hr, hp]
  cases og with
  | none =>
    simpa [validateOrigin, declaredOrigin, headerTruthy] using hreferer rf
  | some o =>
    by_cases ho : o.isEmpty
    · simpa [validateOrigin, declaredOrigin, headerTruthy, ho] using
        hreferer rf
    · simp [validateOrigin, declaredOrigin, headerTruthy, ho]

/-- C7: resolving access via `getUserBusinessAccess` produces exactly the
same outcome — `null` — when no business with the supplied uuid exists as
when the business exists but the account holds no membership row in it;
and under a validated session, `BusinessPage` renders the `null` outcome
of either cause as the same generic 404. -/
theorem access_absence_indistinguishable
    (dbA dbB : DB) (uidA uidB : Nat) (uuidA uuidB : String)
    (b0 : BusinessRow)
    (hA : ∀ b ∈ dbA.businesses, b.businessUuid ≠ uuidA)
    (hb0 : b0 ∈ dbB.businesses) (hb0u : b0.businessUuid = uuidB)
    (hB : ∀ b ∈ dbB.businesses, b.businessUuid = uuidB →
      ∀ ub ∈ dbB.userBusinesses, ub.businessId = b.businessId →
        ub.userId ≠ uidB) :
    getUserBusinessAccess dbA uidA uuidA = none ∧
    getUserBusinessAccess dbB uidB uuidB = none ∧
    getUserBusinessAccess dbA uidA uuidA =
      getUserBusinessAccess dbB uidB uuidB ∧
    (∀ (db : DB) (now : Int) (t : String) (sOpt : Option SessionRow)
        (cu : UserRow) (db1 : DB) (uuid : String),
      validateSessionToken db now t = ((sOpt, some cu), db1) →
      getUserBusinessAccess db1 cu.userId uuid = none →
      businessPage db now (some t) uuid = (.pageNotFound, db1)) := by
  have key : ∀ (db : DB) (uid : Nat) (uuid : String),
      (∀ b ∈ db.businesses, b.businessUuid = uuid →
        ∀ ub ∈ db.userBusinesses, ub.businessId = b.businessId →
          ub.userId ≠ uid) →
      getUserBusinessAccess db uid uuid = none := by
    intro db uid uuid h
    simp only [getUserBusinessAccess]
    rw [Option.map_eq_none', List.head?_eq_none_iff, List.filter_eq_nil_iff]
    rintro ⟨b, ub⟩ hmem
    simp only [businessMembershipJoin, List.mem_flatMap, List.mem_map,
      List.mem_filter, Prod.mk.injEq] at hmem
    obtain ⟨b', hb', ub', ⟨hub', hid⟩, heq1, heq2⟩ := hmem
    subst heq1
    subst heq2
    simp only [Bool.and_eq_true, beq_iff_eq, not_and]
    intro hbu
    exact h b' hb' hbu ub' hub' (beq_iff_eq.mp hid).symm
  have h1 : getUserBusinessAccess dbA uidA uuidA = none :=
    key dbA uidA uuidA fun b hb hbu => absurd hbu (hA b hb)
  have h2 : getUserBusinessAccess dbB uidB uuidB = none :=
    key dbB uidB uuidB hB
  refine ⟨h1, h2, h1.trans h2.symm, ?_⟩
  intro db now t sOpt cu db1 uuid hval hnone
  simp only [businessPage]
  rw [hval]
  simp [hnone]

/-- Database with no business carrying the probed uuid. -/
def dbNoTenant : DB :=
  { users := [], sessions := [], businesses := [], userBusinesses := [],
    portfolios := [], comments := [] }

/-- Database with a business carrying the probed uuid whose only
membership row belongs to a different account (id 8, not 7). -/
def dbTenantNoMembership : DB :=
  { users := [], sessions := [],
    businesses := [{ businessId := 10, businessUuid := "t2",
                     businessPublicUuid := "p2", name := "Acme",
                     logoUrl := none }],
    userBusinesses := [{ userBusinessId := 1, userId := 8, businessId := 10,
                         role := "admin" }],
    portfolios := [], comments := [] }

/-- C7 witness: at concrete stores, a missing tenant and a
membership-less tenant resolve to the same `none`. -/
theorem access_absence_indistinguishable_witness :
    getUserBusinessAccess dbNoTenant 7 "t1" = none ∧
    getUserBusinessAccess dbTenantNoMembership 7 "t2" = none :=
  have h := access_absence_indistinguishable dbNoTenant dbTenantNoMembership
    7 7 "t1" "t2"
    { businessId := 10, businessUuid := "t2", businessPublicUuid := "p2",
      name := "Acme", logoUrl := none }
    (by decide) (by decide) (by decide) (by decide)
  ⟨h.1, h.2.1⟩

/-- Concrete store used to exercise `getPortfolioComments`: one
portfolio (id 5) with an earlier comment (`createdAt` 1000) and a later
one (`createdAt` 2000). -/
def commentsDemoDB : DB :=
  { users := [{ userId := 1, userUuid := "u1", userPublicUuid := "up1",
                email := "alice@example.com", passwordHash := "h" }],
    sessions := [],
    businesses := [{ businessId := 10, businessUuid := "b1",
                     businessPublicUuid := "bp1", name := "Acme",
                     logoUrl := none }],
    userBusinesses := [{ userBusinessId := 1, userId := 1, businessId := 10,
                         role := "admin" }],
    portfolios := [{ portfolioId := 5, portfolioUuid := "pf1",
                     portfolioPublicUuid := "pfp1", businessId := 10,
                     title := "Folio", visibility := "visible" }],
    comments := [{ commentId := 1, commentUuid := "c1", portfolioId := 5,
                   userId := 1, content := "first", createdAt := 1000 },
                 { commentId := 2, commentUuid := "c2", portfolioId := 5,
                   userId := 1, content := "second", createdAt := 2000 }] }

/-- C2: `getPortfolioComments` sorts by `desc(comment.createdAt)`, so the
later annotation (`createdAt` 2000) is returned ahead of the earlier one
(`createdAt` 1000) — newest first, the reverse of the chronological
order its own documentation and the spec describe. -/
theorem getPortfolioComments_newest_first :
    getPortfolioComments commentsDemoDB 5 =
      [{ commentId := 2, commentUuid := "c2", content := "second",
         createdAt := 2000, userId := 1, userEmail := "alice@example.com" },
       { commentId := 1, commentUuid := "c1", content := "first",
         createdAt := 1000, userId := 1, userEmail := "alice@example.com" }] ∧
    (getPortfolioComments commentsDemoDB 5).map (fun c => c.createdAt) =
      [2000, 1000] := by
  constructor
  · rfl
  · rfl

/-- Every table other than `session` is untouched by
`validateSessionToken`. -/
theorem validateSessionToken_preserves (db : DB) (now : Int) (token : String) :
    (validateSessionToken db now token).2.users = db.users ∧
    (validateSessionToken db now token).2.businesses = db.businesses ∧
    (validateSessionToken db now token).2.userBusinesses =
      db.userBusinesses ∧
    (validateSessionToken db now token).2.portfolios = db.portfolios ∧
    (validateSessionToken db now token).2.comments = db.comments := by
  simp only [validateSessionToken]
  cases h : ((sessionUserJoin db).filter
      fun p => p.2.sessionToken == token).head? with
  | none => simp
  | some p =>
    obtain ⟨u, s⟩ := p
    by_cases h1 : now ≥ s.expiresAt
    · simp [h1]
    · by_cases h2 : now ≥ s.expiresAt - FIFTEEN_DAYS_MS
      · simp [h1, h2]
      · simp [h1, h2]

/-- C3: when the token resolves to a stored session (joined with its
owning account), a validation earlier than `expiry - 15 days` returns the
account with the store unchanged (expiry not extended), while a
validation at or after `expiry - 15 days` but before `expiry` extends the
stored expiry to `now + 30 days` before returning the account. -/
theorem validateSessionToken_sliding_window
    (db : DB) (now : Int) (token : String) (u : UserRow) (s : SessionRow)
    (hfind : ((sessionUserJoin db).filter
        fun p => p.2.sessionToken == token).head? = some (u, s)) :
    (now < s.expiresAt - FIFTEEN_DAYS_MS →
      validateSessionToken db now token = ((some s, some u), db)) ∧
    (s.expiresAt - FIFTEEN_DAYS_MS ≤ now → now < s.expiresAt →
      validateSessionToken db now token =
        ((some { s with expiresAt := now + THIRTY_DAYS_MS }, some u),
         { db with sessions := db.sessions.map fun r =>
            if r.sessionId == s.sessionId then
              { r with expiresAt := now + THIRTY_DAYS_MS }
            else r })) := by
  constructor
  · intro h
    have hpos : (0 : Int) < FIFTEEN_DAYS_MS := by norm_num [FIFTEEN_DAYS_MS]
    have hne : ¬ now ≥ s.expiresAt := by omega
    have hne2 : ¬ now ≥ s.expiresAt - FIFTEEN_DAYS_MS := by omega
    simp only [validateSessionToken, hfind]
    rw [if_neg hne, if_neg hne2]
  · intro h1 h2
    have hne : ¬ now ≥ s.expiresAt := by omega
    simp only [validateSessionToken, hfind]
    rw [if_neg hne, if_pos h1]

/-- Store with one account and one session whose stored expiry is the
30-day mark (milliseconds). -/
def sessionDemoDB : DB :=
  { users := [{ userId := 1, userUuid := "u1", userPublicUuid := "up1",
                email := "alice@example.com", passwordHash := "h" }],
    sessions := [{ sessionId := 1, sessionToken := "tok", userId := 1,
                   expiresAt := 2592000000 }],
    businesses := [], userBusinesses := [], portfolios := [], comments := [] }

/-- C3 witness: at `expiry - 20 days` (864000000) the session is returned
unextended with the store unchanged; at `expiry - 10 days` (1728000000)
the stored expiry becomes `now + 30 days` (4320000000). -/
theorem validateSessionToken_sliding_window_witness :
    validateSessionToken sessionDemoDB 864000000 "tok" =
      ((some { sessionId := 1, sessionToken := "tok", userId := 1,
               expiresAt := 2592000000 },
        some { userId := 1, userUuid := "u1", userPublicUuid := "up1",
               email := "alice@example.com", passwordHash := "h" }),
       sessionDemoDB) ∧
    validateSessionToken sessionDemoDB 1728000000 "tok" =
      ((some { sessionId := 1, sessionToken := "tok", userId := 1,
               expiresAt := 4320000000 },
        some { userId := 1, userUuid := "u1", userPublicUuid := "up1",
               email := "alice@example.com", passwordHash := "h" }),
       { sessionDemoDB with
          sessions := [{ sessionId := 1, sessionToken := "tok", userId := 1,
                         expiresAt := 4320000000 }] }) := by
  have h := validateSessionToken_sliding_window sessionDemoDB 864000000 "tok"
    { userId := 1, userUuid := "u1", userPublicUuid := "up1",
      email := "alice@example.com", passwordHash := "h" }
    { sessionId := 1, sessionToken := "tok", userId := 1,
      expiresAt := 2592000000 } rfl
  have h2 := validateSessionToken_sliding_window sessionDemoDB 1728000000 "tok"
    { userId := 1, userUuid := "u1", userPublicUuid := "up1",
      email := "alice@example.com", passwordHash := "h" }
    { sessionId := 1, sessionToken := "tok", userId := 1,
      expiresAt := 2592000000 } rfl
  refine ⟨h.1 (by decide), ?_⟩
  have h3 := h2.2 (by decide) (by decide)
  simpa [sessionDemoDB, THIRTY_DAYS_MS] using h3

/-- C4: when the token resolves to a stored session whose expiry has
passed (`now >= expiry`) and the store satisfies the unique constraint on
`session_token`, `validateSessionToken` deletes the session row and
returns the null session and user; a second validation with the same
token — at any later (or any) instant — also returns null session and
user and leaves the store unchanged: the expired session is never
resurrected. -/
theorem validateSessionToken_expired_never_resurrected
    (db : DB) (now : Int) (token : String) (u : UserRow) (s : SessionRow)
    (hfind : ((sessionUserJoin db).filter
        fun p => p.2.sessionToken == token).head? = some (u, s))
    (huniq : ∀ r ∈ db.sessions, r.sessionToken = token →
      r.sessionId = s.sessionId)
    (hexp : now ≥ s.expiresAt) :
    validateSessionToken db now token =
      ((none, none),
       { db with sessions :=
          db.sessions.filter (fun r => r.sessionId != s.sessionId) }) ∧
    (∀ now2 : Int,
      validateSessionToken
        { db with sessions :=
            db.sessions.filter (fun r => r.sessionId != s.sessionId) } now2 token =
        ((none, none),
         { db with sessions :=
            db.sessions.filter (fun r => r.sessionId != s.sessionId) })) := by
  constructor
  · simp only [validateSessionToken, hfind]
    rw [if_pos hexp]
  · intro now2
    have hnone : ((sessionUserJoin
        { db with sessions :=
            db.sessions.filter (fun r => r.sessionId != s.sessionId) }).filter
        fun p => p.2.sessionToken == token).head? = none := by
      rw [List.head?_eq_none_iff, List.filter_eq_nil_iff]
      rintro ⟨u0, s0⟩ hp
      simp only [sessionUserJoin, List.mem_flatMap, List.mem_map,
        List.mem_filter, Prod.mk.injEq] at hp
      obtain ⟨s1, hs1, u1, ⟨hu1, hid⟩, heq1, heq2⟩ := hp
      subst heq1
      subst heq2
      obtain ⟨hs1mem, hs1ne⟩ := hs1
      simp only [beq_iff_eq, ne_eq]
      intro htok
      have := huniq s1 hs1mem htok
      simp [this] at hs1ne
    simp only [validateSessionToken, hnone]

/-- Store with one account and one session already past its expiry at
the probing instants. -/
def expiredSessionDB : DB :=
  { users := [{ userId := 1, userUuid := "u1", userPublicUuid := "up1",
                email := "alice@example.com", passwordHash := "h" }],
    sessions := [{ sessionId := 1, sessionToken := "tok", userId := 1,
                   expiresAt := 1000 }],
    businesses := [], userBusinesses := [], portfolios := [], comments := [] }

/-- C4 witness: validating the expired token at 1000 deletes the row and
returns nulls; validating it again at 5000 also returns nulls. -/
theorem validateSessionToken_expired_never_resurrected_witness :
    validateSessionToken expiredSessionDB 1000 "tok" =
      ((none, none),
       { expiredSessionDB with sessions := [] }) ∧
    validateSessionToken { expiredSessionDB with sessions := [] } 5000 "tok" =
      ((none, none), { expiredSessionDB with sessions := [] }) := by
  have h := validateSessionToken_expired_never_resurrected expiredSessionDB
    1000 "tok"
    { userId := 1, userUuid := "u1", userPublicUuid := "up1",
      email := "alice@example.com", passwordHash := "h" }
    { sessionId := 1, sessionToken := "tok", userId := 1, expiresAt := 1000 }
    rfl (by decide) (by decide)
  refine ⟨?_, ?_⟩
  · simpa [expiredSessionDB] using h.1
  · simpa [expiredSessionDB] using h.2 5000

/-- C9: when a membership row for the target (account, business) pair
already exists, `assignUserToBusiness` fails with the generic conflict
error and leaves the membership table unchanged — no new row is inserted
and the existing row (in particular, its role) is preserved. Hypotheses
fix the authenticated caller, a validated email, the caller's `admin`
access, the resolved target account, and the pre-existing row. -/
theorem assignUserToBusiness_duplicate_conflict
    (db : DB) (now : Int) (t : String) (emailOk : String → Bool)
    (emailInput : Option String) (businessUuid : String)
    (newUserBusinessId : Nat) (sOpt : Option SessionRow) (cu : UserRow)
    (db1 : DB) (email : String) (access : BusinessAccess)
    (target : UserRow) (ub0 : UserBusinessRow)
    (hauth : validateSessionToken db now t = ((sOpt, some cu), db1))
    (hmail : assignUserSchema emailOk emailInput = some email)
    (haccess : getUserBusinessAccess db1 cu.userId businessUuid = some access)
    (hadmin : access.role = "admin")
    (htarget : (db1.users.filter fun u => u.email == email).head? =
      some target)
    (hdup : ub0 ∈ db1.userBusinesses) (hdu : ub0.userId = target.userId)
    (hdb : ub0.businessId = access.businessId) :
    assignUserToBusiness db now (some t) emailOk emailInput businessUuid
        newUserBusinessId =
      (.actionError "Something went wrong", db1) ∧
    db1.userBusinesses = db.userBusinesses ∧
    ub0 ∈ (assignUserToBusiness db now (some t) emailOk emailInput
        businessUuid newUserBusinessId).2.userBusinesses := by
  have hp := validateSessionToken_preserves db now t
  rw [hauth] at hp
  have hub : db1.userBusinesses = db.userBusinesses := hp.2.2.1
  have hd : (db1.userBusinesses.filter fun ub =>
      ub.userId == target.userId && ub.businessId == access.businessId) ≠
        [] := by
    intro hnil
    rw [List.filter_eq_nil_iff] at hnil
    exact hnil ub0 hdup (by simp [hdu, hdb])
  cases hh : (db1.userBusinesses.filter fun ub =>
      ub.userId == target.userId && ub.businessId == access.businessId).head?
      with
  | none => exact absurd (List.head?_eq_none_iff.mp hh) hd
  | some ub1 =>
    have hres : assignUserToBusiness db now (some t) emailOk emailInput
        businessUuid newUserBusinessId =
        (.actionError "Something went wrong", db1) := by
      simp only [assignUserToBusiness, hauth, hmail, haccess, htarget, hh,
        hadmin]
      simp
    refine ⟨hres, hub, ?_⟩
    rw [hres]
    exact hdup

/-- Store for the C9 witness: Bob already holds a `member` row in the
business Alice administers. -/
def duplicateMembershipDB : DB :=
  { users := [{ userId := 1, userUuid := "u1", userPublicUuid := "up1",
                email := "alice@example.com", passwordHash := "h" },
              { userId := 2, userUuid := "u2", userPublicUuid := "up2",
                email := "bob@example.com", passwordHash := "h2" }],
    sessions := [{ sessionId := 1, sessionToken := "tok", userId := 1,
                   expiresAt := 1000000000000 }],
    businesses := [{ businessId := 10, businessUuid := "b1",
                     businessPublicUuid := "bp1", name := "Acme",
                     logoUrl := none }],
    userBusinesses := [{ userBusinessId := 1, userId := 1, businessId := 10,
                         role := "admin" },
                       { userBusinessId := 2, userId := 2, businessId := 10,
                         role := "member" }],
    portfolios := [], comments := [] }

/-- C9 witness: re-assigning Bob to the business fails with the generic
error and Bob's original `member` row is still present afterwards. -/
theorem assignUserToBusiness_duplicate_conflict_witness :
    assignUserToBusiness duplicateMembershipDB 0 (some "tok")
        (fun e => e == "bob@example.com") (some "bob@example.com") "b1" 99 =
      (.actionError "Something went wrong", duplicateMembershipDB) ∧
    ({ userBusinessId := 2, userId := 2, businessId := 10,
       role := "member" } : UserBusinessRow) ∈
      (assignUserToBusiness duplicateMembershipDB 0 (some "tok")
        (fun e => e == "bob@example.com") (some "bob@example.com") "b1"
        99).2.userBusinesses :=
  have h := assignUserToBusiness_duplicate_conflict duplicateMembershipDB 0
    "tok" (fun e => e == "bob@example.com") (some "bob@example.com") "b1" 99
    (some { sessionId := 1, sessionToken := "tok", userId := 1,
            expiresAt := 1000000000000 })
    { userId := 1, userUuid := "u1", userPublicUuid := "up1",
      email := "alice@example.com", passwordHash := "h" }
    duplicateMembershipDB "bob@example.com"
    { businessId := 10, businessUuid := "b1", businessPublicUuid := "bp1",
      name := "Acme", logoUrl := none, role := "admin" }
    { userId := 2, userUuid := "u2", userPublicUuid := "up2",
      email := "bob@example.com", passwordHash := "h2" }
    { userBusinessId := 2, userId := 2, businessId := 10, role := "member" }
    (by decide) (by decide) (by decide) (by decide) (by decide) (by decide)
    (by decide) (by decide)
  ⟨h.1, h.2.2⟩

/-- C10: for an authenticated caller whose membership resolves in one
business, probing a portfolio uuid that no portfolio of that business
carries — in particular the uuid of a portfolio owned by a different
business, or a nonexistent one — makes `togglePortfolioVisibility` and
`addComment` return the one generic error with no row modified, and
makes the portfolio page render the generic 404; the outcome is a fixed
value, identical across all such probes. -/
theorem foreign_portfolio_indistinguishable
    (db : DB) (now : Int) (t : String) (sOpt : Option SessionRow)
    (cu : UserRow) (db1 : DB) (businessUuid portfolioUuid : String)
    (access : BusinessAccess) (contentInput : Option String)
    (content : String) (newCommentId : Nat) (commentUuid : String)
    (hauth : validateSessionToken db now t = ((sOpt, some cu), db1))
    (haccess : getUserBusinessAccess db1 cu.userId businessUuid =
      some access)
    (hforeign : ∀ p ∈ db1.portfolios, p.portfolioUuid = portfolioUuid →
      p.businessId ≠ access.businessId)
    (hcontent : addCommentSchema contentInput = some content) :
    togglePortfolioVisibility db now (some t) portfolioUuid businessUuid =
      (.actionError "Something went wrong", db1) ∧
    (togglePortfolioVisibility db now (some t) portfolioUuid
      businessUuid).2.portfolios = db.portfolios ∧
    addComment db now (some t) contentInput portfolioUuid businessUuid
      newCommentId commentUuid =
      (.actionError "Something went wrong", db1) ∧
    (addComment db now (some t) contentInput portfolioUuid businessUuid
      newCommentId commentUuid).2.comments = db.comments ∧
    portfolioPage db now (some t) businessUuid portfolioUuid =
      (.pageNotFound, db1) := by
  have hp := validateSessionToken_preserves db now t
  rw [hauth] at hp
  have hscoped : (db1.portfolios.filter fun p =>
      p.portfolioUuid == portfolioUuid
      && p.businessId == access.businessId).head? = none := by
    rw [List.head?_eq_none_iff, List.filter_eq_nil_iff]
    intro p hmem
    simp only [Bool.and_eq_true, beq_iff_eq, not_and]
    intro hu
    exact hforeign p hmem hu
  have htoggle : togglePortfolioVisibility db now (some t) portfolioUuid
      businessUuid = (.actionError "Something went wrong", db1) := by
    simp only [togglePortfolioVisibility, hauth, haccess, hscoped]
    by_cases hrole : access.role = "admin"
    · simp [hrole]
    · simp [hrole]
  have hadd : addComment db now (some t) contentInput portfolioUuid
      businessUuid newCommentId commentUuid =
      (.actionError "Something went wrong", db1) := by
    simp only [addComment, hauth, hcontent, haccess, hscoped]
  have hpage : portfolioPage db now (some t) businessUuid portfolioUuid =
      (.pageNotFound, db1) := by
    simp only [portfolioPage, hauth, haccess]
    cases hfirst : (db1.portfolios.filter fun p =>
        p.portfolioUuid == portfolioUuid).head? with
    | none => simp
    | some p =>
      have hpf : p ∈ db1.portfolios ∧ (p.portfolioUuid == portfolioUuid)
          = true :=
        List.mem_filter.mp (List.mem_of_mem_head? hfirst)
      have hne : p.businessId ≠ access.businessId :=
        hforeign p hpf.1 (by simpa using hpf.2)
      simp [hne]
  exact ⟨htoggle, by rw [htoggle]; exact hp.2.2.2.1, hadd,
    by rw [hadd]; exact hp.2.2.2.2, hpage⟩

/-- Store for the C10 witness: the caller (user 1) is a `member` of
business A (id 10, uuid `bA`); the probed portfolio `pfB` is owned by the
unrelated business B (id 20, uuid `bB`). -/
def crossTenantDB : DB :=
  { users := [{ userId := 1, userUuid := "u1", userPublicUuid := "up1",
                email := "alice@example.com", passwordHash := "h" }],
    sessions := [{ sessionId := 1, sessionToken := "tok", userId := 1,
                   expiresAt := 1000000000000 }],
    businesses := [{ businessId := 10, businessUuid := "bA",
                     businessPublicUuid := "bpA", name := "A",
                     logoUrl := none },
                   { businessId := 20, businessUuid := "bB",
                     businessPublicUuid := "bpB", name := "B",
                     logoUrl := none }],
    userBusinesses := [{ userBusinessId := 1, userId := 1, businessId := 10,
                         role := "member" }],
    portfolios := [{ portfolioId := 5, portfolioUuid := "pfB",
                     portfolioPublicUuid := "pfpB", businessId := 20,
                     title := "Foreign", visibility := "visible" }],
    comments := [] }

/-- C10 witness: probing business B's portfolio through business A
yields the one generic error for the toggle and comment actions with no
row touched, and the generic 404 for the page. -/
theorem foreign_portfolio_indistinguishable_witness :
    togglePortfolioVisibility crossTenantDB 0 (some "tok") "pfB" "bA" =
      (.actionError "Something went wrong", crossTenantDB) ∧
    (togglePortfolioVisibility crossTenantDB 0 (some "tok") "pfB"
      "bA").2.portfolios = crossTenantDB.portfolios ∧
    addComment crossTenantDB 0 (some "tok") (some "hi") "pfB" "bA" 9 "c9" =
      (.actionError "Something went wrong", crossTenantDB) ∧
    portfolioPage crossTenantDB 0 (some "tok") "bA" "pfB" =
      (.pageNotFound, crossTenantDB) :=
  have h := foreign_portfolio_indistinguishable crossTenantDB 0 "tok"
    (some { sessionId := 1, sessionToken := "tok", userId := 1,
            expiresAt := 1000000000000 })
    { userId := 1, userUuid := "u1", userPublicUuid := "up1",
      email := "alice@example.com", passwordHash := "h" }
    crossTenantDB "bA" "pfB"
    { businessId := 10, businessUuid := "bA", businessPublicUuid := "bpA",
      name := "A", logoUrl := none, role := "member" }
    (some "hi") "hi" 9 "c9"
    (by decide) (by decide) (by decide) (by decide)
  ⟨h.1, h.2.1, h.2.2.1, h.2.2.2.2⟩

/-- After inserting a fresh business row (uuid unseen, id unseen in the
membership table) together with its creator's `admin` membership row, the
creator resolves to `admin` of the new business. -/
theorem getUserBusinessAccess_insert
    (db1 : DB) (uid : Nat) (uuid puuid nm : String) (nb nub : Nat)
    (hnoconf : ∀ b ∈ db1.businesses, b.businessUuid ≠ uuid)
    (hfresh : ∀ ub ∈ db1.userBusinesses, ub.businessId ≠ nb) :
    getUserBusinessAccess
      { db1 with
         businesses := db1.businesses ++ [BusinessRow.mk nb uuid puuid nm none]
         userBusinesses := db1.userBusinesses ++
           [UserBusinessRow.mk nub uid nb "admin"] } uid uuid =
      some (BusinessAccess.mk nb uuid puuid nm none "admin") := by
  have hold : db1.userBusinesses.filter
      (fun ub => nb == ub.businessId) = [] := by
    rw [List.filter_eq_nil_iff]
    intro ub hub
    simp only [beq_iff_eq]
    exact fun h => hfresh ub hub h.symm
  have hfilter_old : (db1.userBusinesses ++
      [UserBusinessRow.mk nub uid nb "admin"]).filter
        (fun ub => nb == ub.businessId) =
      [UserBusinessRow.mk nub uid nb "admin"] := by
    rw [List.filter_append, hold]
    simp
  have hleft : ((db1.businesses.flatMap fun b =>
      ((db1.userBusinesses ++ [UserBusinessRow.mk nub uid nb "admin"]).filter
        fun ub => b.businessId == ub.businessId).map
        fun ub => (b, ub)).filter fun p =>
          p.1.businessUuid == uuid && p.2.userId == uid) = [] := by
    rw [List.filter_eq_nil_iff]
    rintro ⟨b, ub⟩ hmem
    simp only [List.mem_flatMap, List.mem_map, List.mem_filter,
      Prod.mk.injEq] at hmem
    obtain ⟨b', hb', ub', ⟨hub', hid⟩, heq1, heq2⟩ := hmem
    subst heq1
    subst heq2
    simp only [Bool.and_eq_true, beq_iff_eq, not_and]
    intro hbu
    exact absurd hbu (hnoconf b' hb')
  simp only [getUserBusinessAccess, businessMembershipJoin,
    List.flatMap_append, List.flatMap_cons, List.flatMap_nil,
    List.append_nil]
  rw [hfilter_old, List.filter_append, hleft, List.nil_append]
  simp

/-- C8: `createBusiness` is atomic. Provided the serial id chosen for
the new business is fresh for the membership table (the store's
primary-key guarantee), every run either fails with an error and leaves
the business and membership tables exactly as they were — no orphaned
tenant — or succeeds with a redirect, after which the business row and
the creator's `admin` membership row both exist and the creating account
resolves to `admin` of the new business. -/
theorem createBusiness_atomic
    (db : DB) (now : Int) (token : Option String) (nameInput : Option String)
    (businessUuid businessPublicUuid : String)
    (newBusinessId newUserBusinessId : Nat)
    (hfresh : ∀ ub ∈ db.userBusinesses, ub.businessId ≠ newBusinessId) :
    ((createBusiness db now token nameInput businessUuid businessPublicUuid
        newBusinessId newUserBusinessId).2.businesses = db.businesses ∧
     (createBusiness db now token nameInput businessUuid businessPublicUuid
        newBusinessId newUserBusinessId).2.userBusinesses =
       db.userBusinesses ∧
     ∃ msg, (createBusiness db now token nameInput businessUuid
        businessPublicUuid newBusinessId newUserBusinessId).1 =
        .actionError msg) ∨
    (∃ uid nm,
      (createBusiness db now token nameInput businessUuid businessPublicUuid
        newBusinessId newUserBusinessId).1 =
        .redirectTo ("/app/" ++ businessUuid) ∧
      BusinessRow.mk newBusinessId businessUuid businessPublicUuid nm none ∈
        (createBusiness db now token nameInput businessUuid
          businessPublicUuid newBusinessId newUserBusinessId).2.businesses ∧
      UserBusinessRow.mk newUserBusinessId uid newBusinessId "admin" ∈
        (createBusiness db now token nameInput businessUuid
          businessPublicUuid newBusinessId
          newUserBusinessId).2.userBusinesses ∧
      getUserBusinessAccess
        (createBusiness db now token nameInput businessUuid
          businessPublicUuid newBusinessId newUserBusinessId).2
        uid businessUuid =
        some (BusinessAccess.mk newBusinessId businessUuid
          businessPublicUuid nm none "admin")) := by
  cases token with
  | none =>
    left
    refine ⟨?_, ?_, "Unauthorized", ?_⟩ <;> simp [createBusiness]
  | some t =>
    have hp := validateSessionToken_preserves db now t
    rcases hv : validateSessionToken db now t with ⟨⟨sOpt, usrOpt⟩, db1⟩
    rw [hv] at hp
    obtain ⟨hpu, hpb, hpub, hpp, hpc⟩ := hp
    replace hpb : db1.businesses = db.businesses := hpb
    replace hpub : db1.userBusinesses = db.userBusinesses := hpub
    cases usrOpt with
    | none =>
      left
      refine ⟨?_, ?_, "Unauthorized", ?_⟩ <;>
        simp [createBusiness, hv, hpb, hpub]
    | some currentUser =>
      cases hname : createBusinessSchema nameInput with
      | none =>
        left
        refine ⟨?_, ?_, "Invalid business name", ?_⟩ <;>
          simp [createBusiness, hv, hname, hpb, hpub]
      | some nm =>
        cases hconf : db1.businesses.any fun b =>
            b.businessUuid == businessUuid
            || b.businessPublicUuid == businessPublicUuid with
        | true =>
          left
          have hres : createBusiness db now (some t) nameInput businessUuid
              businessPublicUuid newBusinessId newUserBusinessId =
              (.actionError "Failed to create business", db1) := by
            simp only [createBusiness, hv, hname]
            rw [if_pos hconf]
          refine ⟨?_, ?_, "Failed to create business", ?_⟩ <;> rw [hres]
          · exact hpb
          · exact hpub
        | false =>
          right
          have hres : createBusiness db now (some t) nameInput businessUuid
              businessPublicUuid newBusinessId newUserBusinessId =
              (.redirectTo ("/app/" ++ businessUuid),
               { db1 with
                  businesses := db1.businesses ++
                    [BusinessRow.mk newBusinessId businessUuid
                      businessPublicUuid nm none]
                  userBusinesses := db1.userBusinesses ++
                    [UserBusinessRow.mk newUserBusinessId currentUser.userId
                      newBusinessId "admin"] }) := by
            simp only [createBusiness, hv, hname]
            rw [if_neg (by simp [hconf])]
          have hnoconf : ∀ b ∈ db1.businesses, b.businessUuid ≠
              businessUuid := by
            intro b hb
            have := List.any_eq_false.mp hconf b hb
            simp only [Bool.or_eq_true, beq_iff_eq, not_or] at this
            exact this.1
          have hfresh1 : ∀ ub ∈ db1.userBusinesses,
              ub.businessId ≠ newBusinessId := by
            intro ub hub
            exact hfresh ub (hpub ▸ hub)
          refine ⟨currentUser.userId, nm, ?_, ?_, ?_, ?_⟩
          · rw [hres]
          · rw [hres]
            simp
          · rw [hres]
            simp
          · rw [hres]
            exact getUserBusinessAccess_insert db1 currentUser.userId
              businessUuid businessPublicUuid nm newBusinessId
              newUserBusinessId hnoconf hfresh1

/-- Store for the C8 witness: one logged-in account and no businesses. -/
def createDemoDB : DB :=
  { users := [{ userId := 1, userUuid := "u1", userPublicUuid := "up1",
                email := "alice@example.com", passwordHash := "h" }],
    sessions := [{ sessionId := 1, sessionToken := "tok", userId := 1,
                   expiresAt := 1000000000000 }],
    businesses := [], userBusinesses := [], portfolios := [], comments := [] }

/-- C8 witness: a concrete run of `createBusiness` redirects, and the
dichotomy of the atomicity theorem holds at that run. -/
theorem createBusiness_atomic_witness :
    (createBusiness createDemoDB 0 (some "tok") (some "Acme") "nb" "nbp"
        10 1).1 = .redirectTo "/app/nb" ∧
    (((createBusiness createDemoDB 0 (some "tok") (some "Acme") "nb" "nbp"
        10 1).2.businesses = createDemoDB.businesses ∧
      (createBusiness createDemoDB 0 (some "tok") (some "Acme") "nb" "nbp"
        10 1).2.userBusinesses = createDemoDB.userBusinesses ∧
      ∃ msg, (createBusiness createDemoDB 0 (some "tok") (some "Acme") "nb"
        "nbp" 10 1).1 = .actionError msg) ∨
     (∃ uid nm,
       (createBusiness createDemoDB 0 (some "tok") (some "Acme") "nb" "nbp"
         10 1).1 = .redirectTo ("/app/" ++ "nb") ∧
       BusinessRow.mk 10 "nb" "nbp" nm none ∈
         (createBusiness createDemoDB 0 (some "tok") (some "Acme") "nb"
           "nbp" 10 1).2.businesses ∧
       UserBusinessRow.mk 1 uid 10 "admin" ∈
         (createBusiness createDemoDB 0 (some "tok") (some "Acme") "nb"
           "nbp" 10 1).2.userBusinesses ∧
       getUserBusinessAccess
         (createBusiness createDemoDB 0 (some "tok") (some "Acme") "nb"
           "nbp" 10 1).2 uid "nb" =
         some (BusinessAccess.mk 10 "nb" "nbp" nm none "admin"))) :=
  ⟨by decide,
   createBusiness_atomic createDemoDB 0 (some "tok") (some "Acme") "nb"
     "nbp" 10 1 (by decide)⟩

/-- C1: for a caller whose access to the business resolves, the
portfolio listing (access resolution and role filter modelled from the
spec, fetching via the source's `getBusinessPortfolios`) returns, for a
`member`, exactly the projections of the business's portfolios whose
visibility flag is `visible` — hidden ones are absent — and, for an
`admin`, the projections of all of the business's portfolios regardless
of the flag. -/
theorem member_sees_only_visible
    (db : DB) (userId : Nat) (businessUuid : String)
    (access : BusinessAccess)
    (haccess : getUserBusinessAccess db userId businessUuid = some access) :
    (access.role = "member" →
      ∃ l, listPortfoliosForCaller db userId businessUuid = some l ∧
        ∀ item, item ∈ l ↔
          ∃ p ∈ db.portfolios, p.businessId = access.businessId ∧
            p.visibility = "visible" ∧ item = projectPortfolio p) ∧
    (access.role = "admin" →
      ∃ l, listPortfoliosForCaller db userId businessUuid = some l ∧
        ∀ item, item ∈ l ↔
          ∃ p ∈ db.portfolios, p.businessId = access.businessId ∧
            item = projectPortfolio p) := by
  have hmemAll : ∀ item,
      item ∈ getBusinessPortfolios db access.businessId ↔
        ∃ p ∈ db.portfolios, p.businessId = access.businessId ∧
          item = projectPortfolio p := by
    intro item
    simp only [getBusinessPortfolios, List.mem_map, mem_insertionSort,
      List.mem_filter, beq_iff_eq]
    constructor
    · rintro ⟨p, ⟨hp, hb⟩, rfl⟩
      exact ⟨p, hp, hb, rfl⟩
    · rintro ⟨p, hp, hb, rfl⟩
      exact ⟨p, ⟨hp, hb⟩, rfl⟩
  constructor
  · intro hrole
    refine ⟨(getBusinessPortfolios db access.businessId).filter
      (fun p => p.visibility == "visible"), ?_, ?_⟩
    · simp [listPortfoliosForCaller, haccess, hrole]
    · intro item
      rw [List.mem_filter, hmemAll]
      constructor
      · rintro ⟨⟨p, hp, hb, rfl⟩, hv⟩
        refine ⟨p, hp, hb, ?_, rfl⟩
        simpa [projectPortfolio] using hv
      · rintro ⟨p, hp, hb, hv, rfl⟩
        exact ⟨⟨p, hp, hb, rfl⟩, by simpa [projectPortfolio] using hv⟩
  · intro hrole
    refine ⟨getBusinessPortfolios db access.businessId, ?_, hmemAll⟩
    simp [listPortfoliosForCaller, haccess, hrole]

/-- Store for the C1 witness: business 10 has a visible and a hidden
portfolio; user 1 is its `admin`, user 2 its `member`; an unrelated
business 20 owns a third portfolio. -/
def visibilityDemoDB : DB :=
  { users := [{ userId := 1, userUuid := "u1", userPublicUuid := "up1",
                email := "alice@example.com", passwordHash := "h" },
              { userId := 2, userUuid := "u2", userPublicUuid := "up2",
                email := "bob@example.com", passwordHash := "h2" }],
    sessions := [],
    businesses := [{ businessId := 10, businessUuid := "b1",
                     businessPublicUuid := "bp1", name := "Acme",
                     logoUrl := none },
                   { businessId := 20, businessUuid := "b2",
                     businessPublicUuid := "bp2", name := "Other",
                     logoUrl := none }],
    userBusinesses := [{ userBusinessId := 1, userId := 1, businessId := 10,
                         role := "admin" },
                       { userBusinessId := 2, userId := 2, businessId := 10,
                         role := "member" }],
    portfolios := [{ portfolioId := 5, portfolioUuid := "pf1",
                     portfolioPublicUuid := "pfp1", businessId := 10,
                     title := "Shown", visibility := "visible" },
                   { portfolioId := 6, portfolioUuid := "pf2",
                     portfolioPublicUuid := "pfp2", businessId := 10,
                     title := "Secret", visibility := "hidden" },
                   { portfolioId := 7, portfolioUuid := "pf3",
                     portfolioPublicUuid := "pfp3", businessId := 20,
                     title := "Elsewhere", visibility := "visible" }],
    comments := [] }

/-- C1 witness: at the concrete store, the member's listing is exactly
the visible portfolios of business 10 and the admin's listing is all of
business 10's portfolios. -/
theorem member_sees_only_visible_witness :
    (∃ l, listPortfoliosForCaller visibilityDemoDB 2 "b1" = some l ∧
      ∀ item, item ∈ l ↔
        ∃ p ∈ visibilityDemoDB.portfolios, p.businessId = 10 ∧
          p.visibility = "visible" ∧ item = projectPortfolio p) ∧
    (∃ l, listPortfoliosForCaller visibilityDemoDB 1 "b1" = some l ∧
      ∀ item, item ∈ l ↔
        ∃ p ∈ visibilityDemoDB.portfolios, p.businessId = 10 ∧
          item = projectPortfolio p) :=
  ⟨(member_sees_only_visible visibilityDemoDB 2 "b1"
      (BusinessAccess.mk 10 "b1" "bp1" "Acme" none "member")
      (by decide)).1 rfl,
   (member_sees_only_visible visibilityDemoDB 1 "b1"
      (BusinessAccess.mk 10 "b1" "bp1" "Acme" none "admin")
      (by decide)).2 rfl⟩
